import Mathlib

/-!
Shallow embedding of `src/script.js` (IRT item-characteristic-curve
visualizer): the Curve Model functions `logistic`, `icc1PL` … `icc4PL`,
the shared sample grid `thetaGrid`, the 4PL compute callbacks with their
d-clamp, and the Reactive Binding's theta/b lock synchronization, together
with theorems settling the specification's claims about them.
-/

namespace Script

noncomputable section

/-- Function `logistic(x)` from src/script.js: `1.0 / (1.0 + Math.exp(-x))`. -/
def logistic (x : ℝ) : ℝ := 1 / (1 + Real.exp (-x))

/-- Function `icc1PL(theta, b)` from src/script.js: `logistic(theta - b)`. -/
def icc1PL (theta b : ℝ) : ℝ := logistic (theta - b)

/-- Function `icc2PL(theta, a, b)` from src/script.js: `logistic(a * (theta - b))`. -/
def icc2PL (theta a b : ℝ) : ℝ := logistic (a * (theta - b))

/-- Function `icc3PL(theta, a, b, c)` from src/script.js:
`c + (1.0 - c) * logistic(a * (theta - b))`. -/
def icc3PL (theta a b c : ℝ) : ℝ := c + (1 - c) * logistic (a * (theta - b))

/-- Function `icc4PL(theta, a, b, c, d)` from src/script.js:
`c + (d - c) * logistic(a * (theta - b))`. -/
def icc4PL (theta a b c d : ℝ) : ℝ := c + (d - c) * logistic (a * (theta - b))

/-- Global `window.thetaGrid` from src/script.js:
`Array.from({length: 400}, (_, i) => -4 + (i * 8 / 399))`. -/
def thetaGrid : List ℝ :=
  (List.range 400).map (fun i : ℕ => -4 + (i : ℝ) * 8 / 399)

/-- The parameter-value map `v` passed to the 4PL `computeCurve` /
`computePoint` callbacks in src/script.js: fields `theta4PL`, `a4PL`,
`b4PL`, `c4PL`, `d4PL`, here named `theta`, `a`, `b`, `c`, `d`. -/
structure Params4PL where
  theta : ℝ
  a : ℝ
  b : ℝ
  c : ℝ
  d : ℝ

/-- The 4PL `computeCurve` callback from src/script.js:
`const d = Math.max(v.d4PL, v.c4PL + 1e-6);`
`return window.thetaGrid.map(t => icc4PL(t, v.a4PL, v.b4PL, v.c4PL, d));` -/
def computeCurve4PL (v : Params4PL) : List ℝ :=
  let d := max v.d (v.c + 1e-6)
  thetaGrid.map (fun t => icc4PL t v.a v.b v.c d)

/-- The 4PL `computePoint` callback from src/script.js:
`const d = Math.max(v.d4PL, v.c4PL + 1e-6);`
`return { x: v.theta4PL, y: icc4PL(v.theta4PL, v.a4PL, v.b4PL, v.c4PL, d) };` -/
def computePoint4PL (v : Params4PL) : ℝ × ℝ :=
  let d := max v.d (v.c + 1e-6)
  (v.theta, icc4PL v.theta v.a v.b v.c d)

/-- Slider state of a model family whose parameter set contains both an
ability slider (`theta…`) and a difficulty slider (`b…`), as handled by
`setupModel` in src/script.js; `rest` carries the remaining sliders'
values (e.g. `a`, `c`, `d`), untouched by the lock machinery. -/
structure LockedSliders (ρ : Type) where
  theta : ℝ
  b : ℝ
  rest : ρ

/-- Listener `onThetaCapture` from src/script.js: when the lock checkbox is
checked, copies the ability slider's value into the difficulty slider,
clamped to the difficulty slider's own `[min, max]` via
`Math.max(bmin, Math.min(bmax, t))`; otherwise does nothing. -/
def onThetaCapture {ρ : Type} (lockChecked : Bool) (bmin bmax : ℝ)
    (s : LockedSliders ρ) : LockedSliders ρ :=
  if lockChecked then { s with b := max bmin (min bmax s.theta) } else s

/-- Function `update` from src/script.js: gathers the current slider values and
invokes the `computeCurve` and `computePoint` callbacks on them,
producing the curve pushed to trace 0 and the point pushed to trace 1. -/
def update {ρ : Type} (computeCurve : LockedSliders ρ → List ℝ)
    (computePoint : LockedSliders ρ → ℝ × ℝ) (s : LockedSliders ρ) :
    List ℝ × (ℝ × ℝ) :=
  (computeCurve s, computePoint s)

/-- Dispatch of an `input` event on the ability slider after the user
moves it to value `v`, per src/script.js and DOM event order: the control
now holds `v`; the capture-phase listener `onThetaCapture` runs first
(capture listeners fire before non-capture listeners on the target);
then the slider's own `input` listener runs `update`, which reads the
post-sync values. Returns the final slider state with the `update`
output. -/
def thetaInputEvent {ρ : Type} (computeCurve : LockedSliders ρ → List ℝ)
    (computePoint : LockedSliders ρ → ℝ × ℝ) (lockChecked : Bool)
    (bmin bmax : ℝ) (s : LockedSliders ρ) (v : ℝ) :
    LockedSliders ρ × (List ℝ × (ℝ × ℝ)) :=
  let s1 : LockedSliders ρ := { s with theta := v }
  let s2 := onThetaCapture lockChecked bmin bmax s1
  (s2, update computeCurve computePoint s2)

/-- The 1PL `computeCurve` callback from src/script.js:
`(v) => window.thetaGrid.map(t => icc1PL(t, v.b1PL))`. -/
def computeCurve1PL (s : LockedSliders Unit) : List ℝ :=
  thetaGrid.map (fun t => icc1PL t s.b)

/-- The 1PL `computePoint` callback from src/script.js:
`(v) => ({ x: v.theta1PL, y: icc1PL(v.theta1PL, v.b1PL) })`. -/
def computePoint1PL (s : LockedSliders Unit) : ℝ × ℝ :=
  (s.theta, icc1PL s.theta s.b)

/-! Helper lemmas about `logistic`, shared by several claims. -/

lemma logistic_pos (x : ℝ) : 0 < logistic x := by
  unfold logistic
  positivity

lemma logistic_lt_one (x : ℝ) : logistic x < 1 := by
  unfold logistic
  rw [div_lt_one (by positivity)]
  linarith [Real.exp_pos (-x)]

lemma logistic_zero : logistic 0 = 1 / 2 := by
  unfold logistic
  rw [neg_zero, Real.exp_zero]
  norm_num

/-! Claim theorems. -/

/-- C1: the Curve Model functions compute exactly their reference
formulas — `logistic(x) = 1/(1+e^-x)`, `icc1PL(θ,b) = logistic(θ-b)`,
`icc2PL(θ,a,b) = logistic(a·(θ-b))`,
`icc3PL(θ,a,b,c) = c + (1-c)·logistic(a·(θ-b))`,
`icc4PL(θ,a,b,c,d) = c + (d-c)·logistic(a·(θ-b))` — and `icc4PL`
performs no clamping of `d` even when `d < c`: with `c = 0.3`,
`d = 0.25` it returns `0.275 < c`, the unclamped formula value. -/
theorem curve_model_reference_formulas :
    (∀ x : ℝ, logistic x = 1 / (1 + Real.exp (-x))) ∧
    (∀ θ b : ℝ, icc1PL θ b = logistic (θ - b)) ∧
    (∀ θ a b : ℝ, icc2PL θ a b = logistic (a * (θ - b))) ∧
    (∀ θ a b c : ℝ, icc3PL θ a b c = c + (1 - c) * logistic (a * (θ - b))) ∧
    (∀ θ a b c d : ℝ,
      icc4PL θ a b c d = c + (d - c) * logistic (a * (θ - b))) ∧
    icc4PL 0 1 0 0.3 0.25 = 0.275 := by
  refine ⟨fun _ => rfl, fun _ _ => rfl, fun _ _ _ => rfl, fun _ _ _ _ => rfl,
    fun _ _ _ _ _ => rfl, ?_⟩
  have h : (1 : ℝ) * (0 - 0) = 0 := by norm_num
  rw [icc4PL, h, logistic_zero]
  norm_num

/-- C6: `icc1PL(θ, b) = icc2PL(θ, 1, b)`, i.e. 1PL is 2PL with
discrimination fixed at 1. -/
theorem icc1PL_eq_icc2PL_one :
    ∀ θ b : ℝ, icc1PL θ b = icc2PL θ 1 b := by
  intro θ b
  simp [icc1PL, icc2PL]

/-- C7: `icc2PL(θ, a, b) = icc3PL(θ, a, b, 0) = icc4PL(θ, a, b, 0, 1)`
(the nesting property of the model families). -/
theorem icc2PL_nesting :
    ∀ θ a b : ℝ,
      icc2PL θ a b = icc3PL θ a b 0 ∧ icc2PL θ a b = icc4PL θ a b 0 1 := by
  intro θ a b
  constructor <;> simp [icc2PL, icc3PL, icc4PL]

/-- C10: `icc3PL(θ, a, b, c) = icc4PL(θ, a, b, c, 1)`, i.e. 3PL is 4PL
with the upper asymptote fixed at 1. -/
theorem icc3PL_eq_icc4PL_one :
    ∀ θ a b c : ℝ, icc3PL θ a b c = icc4PL θ a b c 1 :=
  fun _ _ _ _ => rfl

/-- C8: `logistic(0) = 0.5` and `logistic` is strictly increasing. -/
theorem logistic_zero_and_strictMono :
    logistic 0 = 0.5 ∧ ∀ x y : ℝ, x < y → logistic x < logistic y := by
  constructor
  · rw [logistic_zero]; norm_num
  · intro x y hxy
    have h1 : Real.exp (-y) < Real.exp (-x) := Real.exp_lt_exp.2 (by linarith)
    have h2 : (0 : ℝ) < 1 + Real.exp (-y) := by positivity
    unfold logistic
    exact one_div_lt_one_div_of_lt h2 (by linarith)

/-- Witness for C8: `logistic 0 < logistic 1` via the strict
monotonicity at the concrete inputs `0 < 1`. -/
theorem logistic_zero_and_strictMono_witness :
    (0 : ℝ) < 1 ∧ logistic 0 < logistic 1 :=
  ⟨by norm_num, logistic_zero_and_strictMono.2 0 1 (by norm_num)⟩

/-- C5: for every θ and valid parameters, `icc4PL` output lies in
`[c, d]` whenever `d ≥ c`, and `icc3PL` output lies in `[c, 1]`
(valid `c` satisfies `c ≤ 1`). -/
theorem icc_output_bounds :
    (∀ θ a b c d : ℝ, c ≤ d →
      c ≤ icc4PL θ a b c d ∧ icc4PL θ a b c d ≤ d) ∧
    (∀ θ a b c : ℝ, c ≤ 1 →
      c ≤ icc3PL θ a b c ∧ icc3PL θ a b c ≤ 1) := by
  constructor
  · intro θ a b c d hcd
    have h1 := logistic_pos (a * (θ - b))
    have h2 := logistic_lt_one (a * (θ - b))
    unfold icc4PL
    constructor <;> nlinarith
  · intro θ a b c hc
    have h1 := logistic_pos (a * (θ - b))
    have h2 := logistic_lt_one (a * (θ - b))
    unfold icc3PL
    constructor <;> nlinarith

/-- Witness for C5: the bounds at the concrete inputs θ=0, a=1, b=0,
c=0.2, d=0.9 (4PL) and θ=0, a=1, b=0, c=0.2 (3PL). -/
theorem icc_output_bounds_witness :
    ((0.2 : ℝ) ≤ 0.9 ∧
      (0.2 : ℝ) ≤ icc4PL 0 1 0 0.2 0.9 ∧ icc4PL 0 1 0 0.2 0.9 ≤ 0.9) ∧
    ((0.2 : ℝ) ≤ 1 ∧
      (0.2 : ℝ) ≤ icc3PL 0 1 0 0.2 ∧ icc3PL 0 1 0 0.2 ≤ 1) :=
  ⟨⟨by norm_num, icc_output_bounds.1 0 1 0 0.2 0.9 (by norm_num)⟩,
   ⟨by norm_num, icc_output_bounds.2 0 1 0 0.2 (by norm_num)⟩⟩

/-- C9: the concrete scenario values — `icc1PL(0,0) = 0.5`,
`icc2PL(1,2,0) ≈ 0.8808` (within `10^-5`), `icc3PL(0,1,0,0.2) = 0.6`,
`icc4PL(0,1,0,0.2,0.9) = 0.55`. -/
theorem scenario_values :
    icc1PL 0 0 = 0.5 ∧
    |icc2PL 1 2 0 - 0.8808| < 1e-5 ∧
    icc3PL 0 1 0 0.2 = 0.6 ∧
    icc4PL 0 1 0 0.2 0.9 = 0.55 := by
  have h0 : (1 : ℝ) * (0 - 0) = 0 := by norm_num
  refine ⟨?_, ?_, ?_, ?_⟩
  · rw [icc1PL, sub_zero, logistic_zero]; norm_num
  · have hg : icc2PL 1 2 0 = 1 / (1 + Real.exp (-2)) := by
      rw [icc2PL, show (2 : ℝ) * (1 - 0) = 2 by norm_num]; rfl
    have hE1 := Real.exp_one_gt_d9
    have hE2 := Real.exp_one_lt_d9
    have hEpos : (0 : ℝ) < Real.exp 1 := Real.exp_pos 1
    have hA : Real.exp (-2 : ℝ) = (Real.exp 1 * Real.exp 1)⁻¹ := by
      rw [Real.exp_neg, ← Real.exp_add]; norm_num
    have hA1 : (7.389 : ℝ) < Real.exp 1 * Real.exp 1 := by nlinarith
    have hA2 : Real.exp 1 * Real.exp 1 < 7.3891 := by nlinarith
    have hApos : (0 : ℝ) < Real.exp 1 * Real.exp 1 := by positivity
    have hfrac : (1 : ℝ) / (1 + Real.exp (-2)) =
        Real.exp 1 * Real.exp 1 / (Real.exp 1 * Real.exp 1 + 1) := by
      rw [hA]
      field_simp
    have hden : (0 : ℝ) < Real.exp 1 * Real.exp 1 + 1 := by positivity
    have hlow : (0.88079 : ℝ) <
        Real.exp 1 * Real.exp 1 / (Real.exp 1 * Real.exp 1 + 1) := by
      rw [lt_div_iff₀ hden]; nlinarith
    have hhigh : Real.exp 1 * Real.exp 1 / (Real.exp 1 * Real.exp 1 + 1) <
        0.88081 := by
      rw [div_lt_iff₀ hden]; nlinarith
    rw [hg, hfrac, abs_lt]
    constructor <;> [linarith; linarith]
  · rw [icc3PL, h0, logistic_zero]; norm_num
  · rw [icc4PL, h0, logistic_zero]; norm_num

/-- C4: the shared sample grid has exactly 400 points, first element
`-4`, last element `4`, is strictly increasing, and is evenly spaced
(each consecutive step is exactly `8/399`). -/
theorem thetaGrid_spec :
    thetaGrid.length = 400 ∧
    thetaGrid.head? = some (-4) ∧
    thetaGrid.getLast? = some 4 ∧
    List.Pairwise (fun x y : ℝ => x < y) thetaGrid ∧
    List.Chain' (fun x y : ℝ => y = x + 8 / 399) thetaGrid := by
  refine ⟨?_, ?_, ?_, ?_, ?_⟩
  · simp [thetaGrid]
  · rw [thetaGrid, List.head?_map, List.head?_range]
    norm_num
  · rw [thetaGrid, List.getLast?_map,
      show (400 : ℕ) = Nat.succ 399 from rfl, List.range_succ,
      List.getLast?_concat]
    norm_num
  · rw [thetaGrid, List.pairwise_map]
    refine (List.pairwise_lt_range 400).imp ?_
    intro i j hij
    have h : (i : ℝ) < j := by exact_mod_cast hij
    have h8 : (i : ℝ) * 8 / 399 < (j : ℝ) * 8 / 399 := by
      apply div_lt_div_of_pos_right _ (by norm_num)
      linarith
    linarith
  · rw [thetaGrid, List.chain'_map,
      show (400 : ℕ) = Nat.succ 399 from rfl, List.chain'_range_succ]
    intro m _
    show -4 + ((m.succ : ℝ) * 8 / 399) = -4 + ((m : ℝ) * 8 / 399) + 8 / 399
    push_cast
    ring

/-- C2: for every 4PL parameter map, both the `computeCurve` and the
`computePoint` callbacks clamp `d` to `max(d, c + 1e-6)` before invoking
`icc4PL`; with `c = 0.3` and `d = 0.25` the effective `d` is
`0.3 + 1e-6`, not `0.25`. -/
theorem fourPL_d_clamp :
    (∀ v : Params4PL,
      computePoint4PL v =
        (v.theta, icc4PL v.theta v.a v.b v.c (max v.d (v.c + 1e-6)))) ∧
    (∀ v : Params4PL,
      computeCurve4PL v =
        thetaGrid.map (fun t => icc4PL t v.a v.b v.c (max v.d (v.c + 1e-6)))) ∧
    (∀ θ a b : ℝ,
      computePoint4PL ⟨θ, a, b, 0.3, 0.25⟩ =
        (θ, icc4PL θ a b 0.3 (0.3 + 1e-6))) := by
  refine ⟨fun v => rfl, fun v => rfl, ?_⟩
  intro θ a b
  have hmax : max (0.25 : ℝ) (0.3 + 1e-6) = 0.3 + 1e-6 :=
    max_eq_right (by norm_num)
  simp only [computePoint4PL, hmax]

/-- C3: with the lock enabled, an ability-slider change to value `v`
first clamps-and-copies `v` into the difficulty control and only then
runs the recomputation, so the resulting difficulty is
`clamp(v) = max(bmin, min(bmax, v))`, the update output is exactly
`update` applied to the post-sync state (never a stale partner value),
and in the concrete 1PL instance setting ability to 2 with difficulty
range `[-3, 3]` yields the point `(2, icc1PL 2 2)`. -/
theorem lock_sync_before_update :
    (∀ (ρ : Type) (cC : LockedSliders ρ → List ℝ)
       (cP : LockedSliders ρ → ℝ × ℝ) (bmin bmax : ℝ)
       (s : LockedSliders ρ) (v : ℝ),
      (thetaInputEvent cC cP true bmin bmax s v).1 =
        ⟨v, max bmin (min bmax v), s.rest⟩ ∧
      (thetaInputEvent cC cP true bmin bmax s v).2 =
        update cC cP ⟨v, max bmin (min bmax v), s.rest⟩) ∧
    (thetaInputEvent computeCurve1PL computePoint1PL true (-3) 3
        ⟨0, 0, ()⟩ 2).2.2 = (2, icc1PL 2 2) := by
  constructor
  · intro ρ cC cP bmin bmax s v
    constructor <;> rfl
  · have hclamp : max (-3 : ℝ) (min 3 2) = 2 := by norm_num
    simp only [thetaInputEvent, onThetaCapture, update, computePoint1PL,
      if_true, hclamp]

end

end Script
